import Mathlib

/-!
Shallow embedding of src/src/components/AIAnalysis.tsx (the AI crop
analysis workflow of the edho repository).

The component keeps five pieces of React state (selectedImage,
imagePreview, analyzing, analysisResult, analysisType) plus the read-only
crop prop. We embed that state as the structure CState, the mock result
builder of simulateAIAnalysis as mockResult over an explicit stream of
random draws, and the user-visible operations as a step function over
events. JavaScript numbers produced by Math.floor on a [0,1) draw are
embedded as integers obtained from rational draws via Int.floor.
-/

namespace EdhoAI

/-- A source of randomness: the successive values returned by
Math.random(), each a rational in [0, 1). The i-th call made by a run of
the code reads val i. -/
structure Rng where
  val : ℕ → ℚ
  nonneg : ∀ i, 0 ≤ val i
  lt_one : ∀ i, val i < 1

/-- diseaseDetection field of AnalysisResult (AIAnalysis.tsx lines 12-16). -/
structure DiseaseDetection where
  detected : Bool
  diseases : List String
  confidence : ℤ
deriving DecidableEq

/-- marketPrediction field of AnalysisResult (lines 18-22). demandLevel is
a string drawn from the literal union type. -/
structure MarketPrediction where
  expectedPrice : ℤ
  demandLevel : String
  bestHarvestTime : String
deriving DecidableEq

/-- environmentalFactors field of AnalysisResult (lines 23-27). -/
structure EnvironmentalFactors where
  soilHealth : ℤ
  weatherImpact : String
  pestRisk : String
deriving DecidableEq

/-- AnalysisResult (AIAnalysis.tsx lines 10-28). -/
structure AnalysisResult where
  healthScore : ℤ
  diseaseDetection : DiseaseDetection
  recommendations : List String
  marketPrediction : MarketPrediction
  environmentalFactors : EnvironmentalFactors
deriving DecidableEq

/-- The mockResult object literal built by simulateAIAnalysis
(AIAnalysis.tsx lines 56-80) once the 3000 ms delay has elapsed. The
eight Math.random() calls are read from the stream in the order the
object literal evaluates them. -/
def mockResult (g : Rng) : AnalysisResult :=
  { healthScore := ⌊g.val 0 * 30⌋ + 70
    diseaseDetection :=
      { detected := decide ((7 : ℚ)/10 < g.val 1)
        diseases := if (7 : ℚ)/10 < g.val 2 then ["Leaf Blight", "Powdery Mildew"] else []
        confidence := ⌊g.val 3 * 20⌋ + 80 }
    recommendations :=
      [ "Increase watering frequency by 20%"
      , "Apply organic fertilizer rich in nitrogen"
      , "Monitor for pest activity in the next 7 days"
      , "Consider companion planting with marigolds"
      , "Harvest within 2-3 weeks for optimal quality" ]
    marketPrediction :=
      { expectedPrice := ⌊g.val 4 * 50⌋ + 25
        demandLevel := (["Low", "Medium", "High"]).getD (⌊g.val 5 * 3⌋).toNat "undefined"
        bestHarvestTime := "Next 2-3 weeks" }
    environmentalFactors :=
      { soilHealth := ⌊g.val 6 * 30⌋ + 70
        weatherImpact := "Favorable conditions expected"
        pestRisk := (["Low", "Medium", "High"]).getD (⌊g.val 7 * 3⌋).toNat "undefined" } }

/-- The three analysis types of the analysisType radio selector
(AIAnalysis.tsx line 35); the initial value is disease. -/
inductive AType where
  | disease
  | health
  | market
deriving DecidableEq

/-- A file handed to the upload input. The platform FileReader is external
to the component; we model its readAsDataURL outcome on this file by the
decodable flag and the data URL it would produce on success. -/
structure File where
  name : String
  dataURL : String
  decodable : Bool
deriving DecidableEq

/-- Outcome of FileReader.readAsDataURL on a file: the onload callback
fires with the data URL exactly when the file decodes. The component
registers no onerror handler (AIAnalysis.tsx lines 41-45), so a failed
decode produces no event at all. -/
def decodeFile (f : File) : Option String :=
  if f.decodable then some f.dataURL else none

/-- Error taxonomy of the spec. The component itself never constructs an
error value; precondition stands for the disabled Start-button guard
rejecting a click. -/
inductive CError where
  | precondition
  | decode
deriving DecidableEq

/-- The component state of AIAnalysis (AIAnalysis.tsx lines 31-35)
together with the read-only crop image reference (crop?.image_url), the
pending in-flight analysis (the rng that the delayed continuation of
simulateAIAnalysis will read), and a closed flag: close hands control to
the host's onClose, which unmounts the panel, after which React drops
every state update of this instance. -/
structure CState where
  selectedImage : Option File
  imagePreview : String
  analyzing : Bool
  analysisResult : Option AnalysisResult
  analysisType : AType
  cropImageUrl : Option String
  pending : Option Rng
  closed : Bool

/-- Initial state of a freshly mounted panel (useState initial values,
AIAnalysis.tsx lines 31-35). -/
def initState (cropImageUrl : Option String) : CState :=
  { selectedImage := none
    imagePreview := ""
    analyzing := false
    analysisResult := none
    analysisType := AType.disease
    cropImageUrl := cropImageUrl
    pending := none
    closed := false }

/-- handleImageUpload (AIAnalysis.tsx lines 37-47): takes files[0] if
present, stores it as selectedImage, then asks the FileReader for a data
URL; only a successful decode fires onload and sets imagePreview. Neither
branch touches analysisResult. -/
def handleImageUpload (s : CState) (files : List File) : CState :=
  match files.head? with
  | some file =>
      let s1 := { s with selectedImage := some file }
      match decodeFile file with
      | some url => { s1 with imagePreview := url }
      | none => s1
  | none => s

/-- The Remove Image button onClick (AIAnalysis.tsx lines 185-193): sets
selectedImage to null and imagePreview to the empty string, nothing else. -/
def removeImage (s : CState) : CState :=
  { s with selectedImage := none, imagePreview := "" }

/-- A click on the Start AI Analysis button. The button is disabled when
analyzing or when neither a selected image nor a crop image url exists
(AIAnalysis.tsx line 222); a click is then rejected without effect,
which we report as the spec's PreconditionError. Otherwise
simulateAIAnalysis starts: analyzing is set and the delayed commit is
scheduled with the rng it will read. -/
def runAnalysis (s : CState) (g : Rng) : Except CError CState :=
  if s.analyzing || (s.selectedImage.isNone && s.cropImageUrl.isNone) then
    Except.error CError.precondition
  else
    Except.ok { s with analyzing := true, pending := some g }

/-- User-visible events of one panel instance. elapse is the 3000 ms
timer of simulateAIAnalysis firing (AIAnalysis.tsx line 53). -/
inductive Event where
  | upload (files : List File)
  | removeClick
  | setType (t : AType)
  | runClick (g : Rng)
  | elapse
  | exportClick
  | closeClick

/-- One step of the workflow controller. Once closed is set the panel is
unmounted: no further UI event reaches this instance, and the delayed
continuation of simulateAIAnalysis still runs at elapse but its
setAnalysisResult/setAnalyzing calls are dropped by React, so the
computed mockResult is discarded. exportClick (the Export Report button,
AIAnalysis.tsx lines 346-362) performs no state update. -/
def step (s : CState) : Event → CState
  | Event.upload files => if s.closed then s else handleImageUpload s files
  | Event.removeClick => if s.closed then s else removeImage s
  | Event.setType t => if s.closed then s else { s with analysisType := t }
  | Event.runClick g =>
      if s.closed then s else
        match runAnalysis s g with
        | Except.ok s1 => s1
        | Except.error _ => s
  | Event.elapse =>
      match s.pending with
      | some g =>
          if s.closed then { s with pending := none }
          else { s with analysisResult := some (mockResult g)
                        , analyzing := false, pending := none }
      | none => s
  | Event.exportClick => s
  | Event.closeClick => { s with closed := true }

/-- Run a sequence of events from a state. -/
def runEvents (s : CState) (es : List Event) : CState :=
  es.foldl step s

/-- JSON documents, the meaning of the string JSON.stringify produces. -/
inductive Json where
  | str (s : String)
  | num (n : ℤ)
  | bool (b : Bool)
  | arr (xs : List Json)
  | obj (fields : List (String × Json))

/-- The document JSON.stringify(analysisResult, null, 2) serializes on
Export Report (AIAnalysis.tsx line 349): keys in object-literal insertion
order. -/
def encodeResult (r : AnalysisResult) : Json :=
  Json.obj
    [ ("healthScore", Json.num r.healthScore)
    , ("diseaseDetection", Json.obj
        [ ("detected", Json.bool r.diseaseDetection.detected)
        , ("diseases", Json.arr (r.diseaseDetection.diseases.map Json.str))
        , ("confidence", Json.num r.diseaseDetection.confidence) ])
    , ("recommendations", Json.arr (r.recommendations.map Json.str))
    , ("marketPrediction", Json.obj
        [ ("expectedPrice", Json.num r.marketPrediction.expectedPrice)
        , ("demandLevel", Json.str r.marketPrediction.demandLevel)
        , ("bestHarvestTime", Json.str r.marketPrediction.bestHarvestTime) ])
    , ("environmentalFactors", Json.obj
        [ ("soilHealth", Json.num r.environmentalFactors.soilHealth)
        , ("weatherImpact", Json.str r.environmentalFactors.weatherImpact)
        , ("pestRisk", Json.str r.environmentalFactors.pestRisk) ]) ]

/-- Read a JSON array of strings back into a list of strings. -/
def decodeStrings : List Json → Option (List String)
  | [] => some []
  | Json.str s :: rest => (decodeStrings rest).map (fun l => s :: l)
  | _ => none

/-- Expect a JSON string. -/
def asStr : Json → Option String
  | Json.str s => some s
  | _ => none

/-- Expect a JSON number. -/
def asNum : Json → Option ℤ
  | Json.num n => some n
  | _ => none

/-- Expect a JSON boolean. -/
def asBool : Json → Option Bool
  | Json.bool b => some b
  | _ => none

/-- Expect a JSON array. -/
def asArr : Json → Option (List Json)
  | Json.arr xs => some xs
  | _ => none

/-- Expect a JSON object and return its field list. -/
def objFields : Json → Option (List (String × Json))
  | Json.obj fs => some fs
  | _ => none

/-- Parse the diseaseDetection object of an exported document. -/
def decodeDisease (j : Json) : Option DiseaseDetection := do
  let fs ← objFields j
  match fs with
  | [(k1, v1), (k2, v2), (k3, v3)] =>
      if k1 = "detected" ∧ k2 = "diseases" ∧ k3 = "confidence" then do
        let det ← asBool v1
        let ds ← asArr v2
        let diseases ← decodeStrings ds
        let conf ← asNum v3
        pure { detected := det, diseases := diseases, confidence := conf }
      else none
  | _ => none

/-- Parse the marketPrediction object of an exported document. -/
def decodeMarket (j : Json) : Option MarketPrediction := do
  let fs ← objFields j
  match fs with
  | [(k1, v1), (k2, v2), (k3, v3)] =>
      if k1 = "expectedPrice" ∧ k2 = "demandLevel" ∧ k3 = "bestHarvestTime" then do
        let ep ← asNum v1
        let dl ← asStr v2
        let bht ← asStr v3
        pure { expectedPrice := ep, demandLevel := dl, bestHarvestTime := bht }
      else none
  | _ => none

/-- Parse the environmentalFactors object of an exported document. -/
def decodeEnv (j : Json) : Option EnvironmentalFactors := do
  let fs ← objFields j
  match fs with
  | [(k1, v1), (k2, v2), (k3, v3)] =>
      if k1 = "soilHealth" ∧ k2 = "weatherImpact" ∧ k3 = "pestRisk" then do
        let sh ← asNum v1
        let wi ← asStr v2
        let pr ← asStr v3
        pure { soilHealth := sh, weatherImpact := wi, pestRisk := pr }
      else none
  | _ => none

/-- Parse an exported document back into an AnalysisResult: accepts
exactly the shape encodeResult produces. -/
def decodeResult (j : Json) : Option AnalysisResult := do
  let fs ← objFields j
  match fs with
  | [(k1, v1), (k2, v2), (k3, v3), (k4, v4), (k5, v5)] =>
      if k1 = "healthScore" ∧ k2 = "diseaseDetection" ∧ k3 = "recommendations"
          ∧ k4 = "marketPrediction" ∧ k5 = "environmentalFactors" then do
        let hs ← asNum v1
        let dd ← decodeDisease v2
        let recsJson ← asArr v3
        let recommendations ← decodeStrings recsJson
        let mp ← decodeMarket v4
        let ef ← decodeEnv v5
        pure
          { healthScore := hs
            diseaseDetection := dd
            recommendations := recommendations
            marketPrediction := mp
            environmentalFactors := ef }
      else none
  | _ => none

/-- The document the Export Report button serializes, when a result is
stored. -/
def exportDoc (s : CState) : Option Json :=
  s.analysisResult.map encodeResult

/-- The constant-zero random stream. -/
def rng0 : Rng where
  val := fun _ => 0
  nonneg := fun _ => le_refl 0
  lt_one := fun _ => by norm_num

/-- A random stream whose second draw exceeds 0.7 while its third does
not: the detection draw and the diseases draw of mockResult disagree. -/
def rngSplit : Rng where
  val := fun i => if i = 1 then 4/5 else if i = 2 then 1/10 else 0
  nonneg := by
    intro i
    dsimp only
    split_ifs <;> norm_num
  lt_one := by
    intro i
    dsimp only
    split_ifs <;> norm_num

/-- A file the FileReader decodes. -/
def fileGood : File :=
  { name := "leaf.png", dataURL := "data:image/png;base64,LEAF", decodable := true }

/-- A file the FileReader cannot decode. -/
def fileBad : File :=
  { name := "broken.bin", dataURL := "", decodable := false }

/-- The result synthesized from the constant-zero stream. -/
def resultZero : AnalysisResult := mockResult rng0

/-- A freshly mounted panel with no crop image. -/
def stateIdle : CState := initState none

/-- A panel in the spec's Complete state: an image was uploaded and a
result is stored. -/
def stateComplete : CState :=
  { stateIdle with
      selectedImage := some fileGood
      imagePreview := fileGood.dataURL
      analysisResult := some resultZero }

/-- A panel in the spec's Analyzing state: the delayed commit of
simulateAIAnalysis is still pending. -/
def stateAnalyzing : CState :=
  { stateIdle with
      selectedImage := some fileGood
      imagePreview := fileGood.dataURL
      analyzing := true
      pending := some rng0 }

/-- Helper bound: for a draw r in [0,1), Math.floor(r * 30) lies in [0, 29]. -/
lemma floor30_bounds (r : ℚ) (h0 : 0 ≤ r) (h1 : r < 1) :
    0 ≤ ⌊r * (30 : ℚ)⌋ ∧ ⌊r * (30 : ℚ)⌋ ≤ 29 := by
  refine ⟨Int.floor_nonneg.2 (mul_nonneg h0 (by norm_num)), ?_⟩
  have h : ⌊r * (30 : ℚ)⌋ < 30 := Int.floor_lt.2 (by push_cast; linarith)
  omega

/-- Helper bound: for a draw r in [0,1), Math.floor(r * 20) lies in [0, 19]. -/
lemma floor20_bounds (r : ℚ) (h0 : 0 ≤ r) (h1 : r < 1) :
    0 ≤ ⌊r * (20 : ℚ)⌋ ∧ ⌊r * (20 : ℚ)⌋ ≤ 19 := by
  refine ⟨Int.floor_nonneg.2 (mul_nonneg h0 (by norm_num)), ?_⟩
  have h : ⌊r * (20 : ℚ)⌋ < 20 := Int.floor_lt.2 (by push_cast; linarith)
  omega

/-- Helper bound: for a draw r in [0,1), Math.floor(r * 50) lies in [0, 49]. -/
lemma floor50_bounds (r : ℚ) (h0 : 0 ≤ r) (h1 : r < 1) :
    0 ≤ ⌊r * (50 : ℚ)⌋ ∧ ⌊r * (50 : ℚ)⌋ ≤ 49 := by
  refine ⟨Int.floor_nonneg.2 (mul_nonneg h0 (by norm_num)), ?_⟩
  have h : ⌊r * (50 : ℚ)⌋ < 50 := Int.floor_lt.2 (by push_cast; linarith)
  omega

/-- Helper bound: for a draw r in [0,1), Math.floor(r * 3) lies in [0, 2]. -/
lemma floor3_bounds (r : ℚ) (h0 : 0 ≤ r) (h1 : r < 1) :
    0 ≤ ⌊r * (3 : ℚ)⌋ ∧ ⌊r * (3 : ℚ)⌋ ≤ 2 := by
  refine ⟨Int.floor_nonneg.2 (mul_nonneg h0 (by norm_num)), ?_⟩
  have h : ⌊r * (3 : ℚ)⌋ < 3 := Int.floor_lt.2 (by push_cast; linarith)
  omega

/-- Indexing the three-level list with Math.floor(r * 3) always yields one
of the three levels. -/
lemma pick_level_mem (r : ℚ) (h0 : 0 ≤ r) (h1 : r < 1) :
    (["Low", "Medium", "High"]).getD (⌊r * (3 : ℚ)⌋).toNat "undefined" ∈
      (["Low", "Medium", "High"] : List String) := by
  obtain ⟨ha, hb⟩ := floor3_bounds r h0 h1
  have h3 : ⌊r * (3 : ℚ)⌋ = 0 ∨ ⌊r * (3 : ℚ)⌋ = 1 ∨ ⌊r * (3 : ℚ)⌋ = 2 := by omega
  rcases h3 with h | h | h <;> simp [h]

/-- Round trip for string lists through the JSON array encoding. -/
lemma decodeStrings_map (l : List String) :
    decodeStrings (l.map Json.str) = some l := by
  induction l with
  | nil => rfl
  | cons a l ih => simp [decodeStrings, ih]

/-- Once closed (the panel unmounted), no later event changes the closed
flag or the stored result: all state updates of the instance are dropped. -/
lemma closed_stable (es : List Event) :
    ∀ s : CState, s.closed = true →
      (runEvents s es).closed = true ∧
        (runEvents s es).analysisResult = s.analysisResult := by
  induction es with
  | nil => exact fun s h => ⟨h, rfl⟩
  | cons e es ih =>
      intro s h
      have hstep : (step s e).closed = true ∧
          (step s e).analysisResult = s.analysisResult := by
        cases e with
        | elapse => cases hp : s.pending <;> simp [step, h, hp]
        | _ => simp [step, h]
      have h2 := ih (step s e) hstep.1
      exact ⟨h2.1, h2.2.trans hstep.2⟩

/-- Claim C1 (code behavior at a concrete random stream): the detection
flag and the diseases list of mockResult come from two independent draws
(AIAnalysis.tsx lines 59-60), so the synthesizer can report a detection
with an empty diseases list, refuting the claimed equivalence between
detected and non-emptiness of diseases. -/
theorem c1_detected_with_empty_diseases :
    (mockResult rngSplit).diseaseDetection.detected = true ∧
    (mockResult rngSplit).diseaseDetection.diseases = [] := by
  constructor <;> (simp only [mockResult, rngSplit]; norm_num)

/-- Claim C2: if close() is called while the controller is Analyzing
(before the simulated delay elapses), then along every continuation —
including the elapse of the in-flight timer — the would-be result is
discarded: no result is ever stored, so the Complete state (a stored
AnalysisResult) is never observed for this instance. -/
theorem c2_close_discards_inflight_result (s : CState) (es : List Event)
    (_hA : s.analyzing = true) (_hC : s.closed = false)
    (hR : s.analysisResult = none) :
    (runEvents (step s Event.closeClick) es).analysisResult = none ∧
    (runEvents (step s Event.closeClick) es).closed = true := by
  have h1 : (step s Event.closeClick).closed = true := by simp [step]
  have h2 : (step s Event.closeClick).analysisResult = s.analysisResult := by
    simp [step]
  have h := closed_stable es (step s Event.closeClick) h1
  exact ⟨h.2.trans (h2.trans hR), h.1⟩

/-- Witness for C2: a concrete Analyzing panel, closed, then the 3000 ms
timer fires; the computed result is dropped and no Complete state appears. -/
theorem c2_close_discards_inflight_result_witness :
    (runEvents (step stateAnalyzing Event.closeClick) [Event.elapse]).analysisResult
        = none ∧
    (runEvents (step stateAnalyzing Event.closeClick) [Event.elapse]).closed
        = true :=
  c2_close_discards_inflight_result stateAnalyzing [Event.elapse] rfl rfl rfl

/-- Counterexample to claim C3 as stated: selecting a new image while a
result is stored (Complete state) does NOT discard the prior
AnalysisResult — handleImageUpload never touches analysisResult
(AIAnalysis.tsx lines 37-47). -/
theorem c3_upload_in_complete_keeps_result_cx :
    (handleImageUpload stateComplete [fileGood]).analysisResult = some resultZero ∧
    (handleImageUpload stateComplete [fileGood]).analysisResult ≠ none := by
  refine ⟨rfl, ?_⟩
  simp [handleImageUpload, decodeFile, fileGood, stateComplete]

/-- Claim C3 amended: selectImage with a provided decodable file replaces
any prior image and decodes it into the preview, but leaves any prior
AnalysisResult stored (the controller does not return to a result-free
ImageReady state). -/
theorem c3_upload_replaces_image_keeps_result (s : CState) (f : File)
    (rest : List File) (h : f.decodable = true) :
    handleImageUpload s (f :: rest) =
      { s with selectedImage := some f, imagePreview := f.dataURL } ∧
    (handleImageUpload s (f :: rest)).analysisResult = s.analysisResult := by
  have he : handleImageUpload s (f :: rest) =
      { s with selectedImage := some f, imagePreview := f.dataURL } := by
    simp [handleImageUpload, decodeFile, h]
  exact ⟨he, by rw [he]⟩

/-- Witness for amended C3: uploading a second image while in Complete
state replaces the image but the stored result survives. -/
theorem c3_upload_replaces_image_keeps_result_witness :
    handleImageUpload stateComplete [fileGood] =
      { stateComplete with
          selectedImage := some fileGood, imagePreview := fileGood.dataURL } ∧
    (handleImageUpload stateComplete [fileGood]).analysisResult =
      stateComplete.analysisResult :=
  c3_upload_replaces_image_keeps_result stateComplete fileGood [] rfl

/-- Counterexample to claim C4 as stated: the Remove Image button does
NOT clear a stored AnalysisResult (its onClick only resets selectedImage
and imagePreview, AIAnalysis.tsx lines 185-193), so the controller does
not return to a result-free Idle state. -/
theorem c4_removeImage_keeps_result_cx :
    (removeImage stateComplete).analysisResult = some resultZero ∧
    (removeImage stateComplete).analysisResult ≠ none := by
  refine ⟨rfl, ?_⟩
  simp [removeImage, stateComplete]

/-- Claim C4 amended: removeImage clears the selected image and the
preview but leaves every other field — in particular any stored
AnalysisResult — unchanged. -/
theorem c4_removeImage_clears_image_keeps_result (s : CState) :
    (removeImage s).selectedImage = none ∧
    (removeImage s).imagePreview = "" ∧
    (removeImage s).analysisResult = s.analysisResult ∧
    (removeImage s).analyzing = s.analyzing ∧
    (removeImage s).analysisType = s.analysisType :=
  ⟨rfl, rfl, rfl, rfl, rfl⟩

/-- Claim C5: with no selected image and no crop image reference, a
runAnalysis click is rejected (the Start button guard, reported as
PreconditionError) and the controller state is unchanged. -/
theorem c5_runAnalysis_rejected_without_image (s : CState) (g : Rng)
    (h1 : s.selectedImage = none) (h2 : s.cropImageUrl = none) :
    runAnalysis s g = Except.error CError.precondition ∧
    step s (Event.runClick g) = s := by
  have hg : (s.analyzing || (s.selectedImage.isNone && s.cropImageUrl.isNone))
      = true := by
    simp [h1, h2]
  have hr : runAnalysis s g = Except.error CError.precondition := by
    simp [runAnalysis, hg]
  refine ⟨hr, ?_⟩
  simp [step, hr]

/-- Witness for C5: the freshly mounted panel with no crop image rejects
an analysis click with no state change. -/
theorem c5_runAnalysis_rejected_without_image_witness :
    runAnalysis stateIdle rng0 = Except.error CError.precondition ∧
    step stateIdle (Event.runClick rng0) = stateIdle :=
  c5_runAnalysis_rejected_without_image stateIdle rng0 rfl rfl

/-- Counterexample to claim C6 as stated: on a file the FileReader cannot
decode, the controller does not remain in its prior state and surfaces no
DecodeError — handleImageUpload stores the file in selectedImage before
any decoding and registers no error handler. -/
theorem c6_decode_failure_changes_state_cx :
    (handleImageUpload stateIdle [fileBad]).selectedImage = some fileBad ∧
    stateIdle.selectedImage = none ∧
    handleImageUpload stateIdle [fileBad] ≠ stateIdle := by
  refine ⟨rfl, rfl, fun h => ?_⟩
  have h2 := congrArg CState.selectedImage h
  simp [handleImageUpload, decodeFile, fileBad, stateIdle, initState] at h2

/-- Claim C6 amended: when the supplied file cannot be decoded, no error
is surfaced and no preview is produced; the controller silently retains
the undecoded file as selectedImage while every other field keeps its
prior value. -/
theorem c6_decode_failure_silently_retains_file (s : CState) (f : File)
    (rest : List File) (h : f.decodable = false) :
    handleImageUpload s (f :: rest) = { s with selectedImage := some f } := by
  simp [handleImageUpload, decodeFile, h]

/-- Witness for amended C6: the undecodable file lands in selectedImage
of the fresh panel; preview and result are untouched. -/
theorem c6_decode_failure_silently_retains_file_witness :
    handleImageUpload stateIdle [fileBad] =
      { stateIdle with selectedImage := some fileBad } :=
  c6_decode_failure_silently_retains_file stateIdle fileBad [] rfl

/-- Claim C7: every synthesized result satisfies the advertised ranges:
healthScore and soilHealth in [70,100], confidence in [80,100],
expectedPrice in [25,75], and both levels drawn from Low/Medium/High. -/
theorem c7_result_bounds (g : Rng) :
    70 ≤ (mockResult g).healthScore ∧ (mockResult g).healthScore ≤ 100 ∧
    70 ≤ (mockResult g).environmentalFactors.soilHealth ∧
    (mockResult g).environmentalFactors.soilHealth ≤ 100 ∧
    80 ≤ (mockResult g).diseaseDetection.confidence ∧
    (mockResult g).diseaseDetection.confidence ≤ 100 ∧
    25 ≤ (mockResult g).marketPrediction.expectedPrice ∧
    (mockResult g).marketPrediction.expectedPrice ≤ 75 ∧
    (mockResult g).marketPrediction.demandLevel ∈
      (["Low", "Medium", "High"] : List String) ∧
    (mockResult g).environmentalFactors.pestRisk ∈
      (["Low", "Medium", "High"] : List String) := by
  obtain ⟨a0, b0⟩ := floor30_bounds (g.val 0) (g.nonneg 0) (g.lt_one 0)
  obtain ⟨a6, b6⟩ := floor30_bounds (g.val 6) (g.nonneg 6) (g.lt_one 6)
  obtain ⟨a3, b3⟩ := floor20_bounds (g.val 3) (g.nonneg 3) (g.lt_one 3)
  obtain ⟨a4, b4⟩ := floor50_bounds (g.val 4) (g.nonneg 4) (g.lt_one 4)
  simp only [mockResult]
  refine ⟨by omega, by omega, by omega, by omega, by omega, by omega,
    by omega, by omega, ?_, ?_⟩
  · exact pick_level_mem (g.val 5) (g.nonneg 5) (g.lt_one 5)
  · exact pick_level_mem (g.val 7) (g.nonneg 7) (g.lt_one 7)

/-- Claim C10: the Math.floor-based draws stay strictly below the spec's
stated maxima — the scores and the confidence never reach 100 and the
price never reaches 75. -/
theorem c10_strict_upper_bounds (g : Rng) :
    (mockResult g).healthScore ≤ 99 ∧
    (mockResult g).environmentalFactors.soilHealth ≤ 99 ∧
    (mockResult g).diseaseDetection.confidence ≤ 99 ∧
    (mockResult g).marketPrediction.expectedPrice ≤ 74 ∧
    (mockResult g).healthScore ≠ 100 ∧
    (mockResult g).environmentalFactors.soilHealth ≠ 100 ∧
    (mockResult g).diseaseDetection.confidence ≠ 100 ∧
    (mockResult g).marketPrediction.expectedPrice ≠ 75 := by
  obtain ⟨a0, b0⟩ := floor30_bounds (g.val 0) (g.nonneg 0) (g.lt_one 0)
  obtain ⟨a6, b6⟩ := floor30_bounds (g.val 6) (g.nonneg 6) (g.lt_one 6)
  obtain ⟨a3, b3⟩ := floor20_bounds (g.val 3) (g.nonneg 3) (g.lt_one 3)
  obtain ⟨a4, b4⟩ := floor50_bounds (g.val 4) (g.nonneg 4) (g.lt_one 4)
  simp only [mockResult]
  refine ⟨by omega, by omega, by omega, by omega, by omega, by omega,
    by omega, by omega⟩

set_option maxHeartbeats 1000000 in
/-- Claim C9: the user-selected analysisType has no influence on the
synthesized result — running the analysis from two states that differ
only in analysisType, with the same random stream, commits the same
AnalysisResult. -/
theorem c9_analysisType_noninterference (s : CState) (t1 t2 : AType) (g : Rng) :
    (runEvents { s with analysisType := t1 }
        [Event.runClick g, Event.elapse]).analysisResult =
    (runEvents { s with analysisType := t2 }
        [Event.runClick g, Event.elapse]).analysisResult := by
  simp only [runEvents, List.foldl]
  cases hc : s.closed <;>
    cases hguard : (s.analyzing || (s.selectedImage.isNone && s.cropImageUrl.isNone)) <;>
      cases hp : s.pending <;>
        simp [step, runAnalysis, hc, hguard, hp]

set_option maxHeartbeats 2000000 in
/-- Claim C8: exporting a stored result serializes exactly its fields
(in the object-literal key order of JSON.stringify) and parsing the
produced document back restores a field-for-field equal AnalysisResult;
the export click performs no state change. -/
theorem c8_export_roundtrip (s : CState) (r : AnalysisResult)
    (h : s.analysisResult = some r) :
    exportDoc s = some (encodeResult r) ∧
    decodeResult (encodeResult r) = some r ∧
    step s Event.exportClick = s := by
  refine ⟨by simp [exportDoc, h], ?_, rfl⟩
  obtain ⟨hs, ⟨det, ds, conf⟩, recs, ⟨ep, dl, bht⟩, ⟨sh, wi, pr⟩⟩ := r
  simp [encodeResult, decodeResult, decodeDisease, decodeMarket, decodeEnv,
    objFields, asNum, asBool, asArr, asStr, decodeStrings_map]

/-- Witness for C8: round trip of the concrete stored result of the
Complete panel. -/
theorem c8_export_roundtrip_witness :
    exportDoc stateComplete = some (encodeResult resultZero) ∧
    decodeResult (encodeResult resultZero) = some resultZero ∧
    step stateComplete Event.exportClick = stateComplete :=
  c8_export_roundtrip stateComplete resultZero rfl

end EdhoAI
